import Mathlib

/-!
Verification development for the OIF pipeline logic repository.

The repository is a pandas-based ETL pipeline.  We embed the tabular data
model and the per-indicator transform/validate/format/upload operations as
executable Lean definitions, translated from the Python source:

- `src/oiflib/format.py` (`format`)
- `src/oiflib/validate.py` (`validate`, i.e. `schema(df)` with pandera's
  default fail-fast `lazy=False` semantics)
- `src/oiflib/air/three/transform.py` (`unpivot`, `split_variable_column`,
  `select_columns`, `filter_rows`, `transform_air_three`)
- `src/oiflib/extract.py` (`_kwargs_from_dict`, `_column_name_to_string`)
- `src/oiflib/upload_raw.py` (both `upload_raw` overloads)

pandas DataFrames are modelled as a header of column names plus a list of
rows; pandas cell values are strings, integers or NaN.
-/

/-- A cell value of a DataFrame: a string, an integer, or pandas' NaN. -/
inductive Value where
  | str (s : String)
  | int (n : Int)
  | na
  deriving DecidableEq, Repr

/-- A pandas DataFrame: an ordered list of column names and a list of rows.
Each row is a list of cell values, positionally aligned with the header. -/
structure Table where
  header : List String
  rows : List (List Value)
  deriving DecidableEq, Repr

/-- Rendering of a value as a Python string, as `astype(str)` would
produce it: strings unchanged, integers via decimal notation, NaN as
"nan". -/
def Value.asString : Value → String
  | .str s => s
  | .int n => toString n
  | .na => "nan"

/-- The cell of row `r` at the column named `c` of table `t` (NaN when the
column is absent or the row is too short). -/
def cellAt (t : Table) (c : String) (r : List Value) : Value :=
  match t.header.findIdx? (fun h => h == c) with
  | some i => r.getD i Value.na
  | none => Value.na

/-- Errors raised by pandas when a transform step references a column that
is absent from the DataFrame: `KeyError` from `df[[...]]` column selection,
`UndefinedVariableError` from `df.query`, `AttributeError` from attribute
access such as `df.variable`.  The spec groups these as "SchemaMismatch". -/
inductive SchemaMismatch where
  | keyError (columns : List String)
  | undefinedVariable (columns : List String)
  | attributeError (name : String)
  deriving DecidableEq, Repr

/-- Column selection `df[cols]`: a table with exactly the columns named in
`cols`, in that order; pandas raises `KeyError` when any is missing. -/
def tableSelect (t : Table) (cols : List String) : Except SchemaMismatch Table :=
  if cols.all (fun c => t.header.contains c) then
    Except.ok
      { header := cols
        rows := t.rows.map (fun r => cols.map (fun c => cellAt t c r)) }
  else
    Except.error (SchemaMismatch.keyError (cols.filter (fun c => ! t.header.contains c)))

/-- Column renaming `df.rename(columns=m)`: every column name that is a key
of the mapping is replaced by its image; rows are untouched. -/
def renameColumns (t : Table) (m : List (String × String)) : Table :=
  { header := t.header.map (fun c => match m.lookup c with | some n => n | none => c)
    rows := t.rows }

/-- Insertion of one key/value pair into a Python `dict` under
construction: an already-present key has its value updated in place (the
key keeps its first-insertion position); otherwise the pair is appended. -/
def pyDictInsert (acc : List (String × String)) (kv : String × String) :
    List (String × String) :=
  if acc.any (fun p => p.1 == kv.1) then
    acc.map (fun p => if p.1 == kv.1 then (p.1, kv.2) else p)
  else acc ++ [kv]

/-- A Python `dict` literal built from an ordered list of key/value
pairs. -/
def pyDict (l : List (String × String)) : List (String × String) :=
  l.foldl pyDictInsert []

/-- Python truthiness of an `Optional[str]`: `None` and the empty string
are falsy. -/
def truthy : Option String → Bool
  | none => false
  | some s => s != ""

/-- Translation of `format` from `src/oiflib/format.py` (lines 110-130):
builds the `columns` dict according to the truthiness of the two optional
disaggregation arguments, then evaluates
`df[columns.keys()].rename(columns=columns)`. -/
def format (df : Table) (year_column value_column : String)
    (disaggregation_column disaggregation_column_new : Option String) :
    Except SchemaMismatch Table :=
  let columns : List (String × String) :=
    if truthy disaggregation_column = false then
      pyDict [(year_column, "Year"), (value_column, "Value")]
    else if truthy disaggregation_column_new = false then
      pyDict [(year_column, "Year"),
        (disaggregation_column.getD "", disaggregation_column.getD ""),
        (value_column, "Value")]
    else
      pyDict [(year_column, "Year"),
        (disaggregation_column.getD "", disaggregation_column_new.getD ""),
        (value_column, "Value")]
  (tableSelect df (columns.map (fun p => p.1))).map (fun u => renameColumns u columns)

/-- A row satisfies a list of column-equality predicates when every named
column's cell equals the given value (pandas `==`; comparisons with NaN are
false because predicate values are never NaN here). -/
def rowSat (t : Table) (preds : List (String × Value)) (r : List Value) : Bool :=
  preds.all (fun p => cellAt t p.1 r == p.2)

/-- Translation of `df.query` with a conjunction of column == literal
predicates: keeps the rows satisfying all predicates, in their original
order; pandas raises `UndefinedVariableError` when a predicate names an
absent column. -/
def query (t : Table) (preds : List (String × Value)) : Except SchemaMismatch Table :=
  if preds.all (fun p => t.header.contains p.1) then
    Except.ok { header := t.header, rows := t.rows.filter (rowSat t preds) }
  else
    Except.error (SchemaMismatch.undefinedVariable
      ((preds.filter (fun p => ! t.header.contains p.1)).map (fun p => p.1)))

/-- Translation of `filter_rows` from `src/oiflib/air/three/transform.py`
(lines 49-58): the query `Country == "England" & measure == "total"`. -/
def filter_rows (df : Table) : Except SchemaMismatch Table :=
  query df [("Country", Value.str "England"), ("measure", Value.str "total")]

/-- The value columns of a melt: all columns not listed as identifier
columns, in original column order (pandas `value_vars` default). -/
def meltValueVars (t : Table) (idVars : List String) : List String :=
  t.header.filter (fun c => ! idVars.contains c)

/-- Translation of pandas `df.melt(id_vars, var_name, value_name)`: the
output header is the identifier columns followed by the variable-name and
value columns; the output rows are, for each value column in order, one row
per input row carrying the identifier cells, the value column's name, and
that cell's value.  pandas raises `KeyError` when an `id_vars` entry is
absent. -/
def melt (t : Table) (idVars : List String) (varName valueName : String) :
    Except SchemaMismatch Table :=
  if idVars.all (fun c => t.header.contains c) then
    Except.ok
      { header := idVars ++ [varName, valueName]
        rows :=
          (meltValueVars t idVars).flatMap (fun v =>
            t.rows.map (fun r =>
              idVars.map (fun c => cellAt t c r) ++ [Value.str v, cellAt t v r])) }
  else
    Except.error (SchemaMismatch.keyError (idVars.filter (fun c => ! t.header.contains c)))

/-- Translation of `unpivot` from `src/oiflib/air/three/transform.py`
(lines 6-18): `df.melt(id_vars=["Area code", "Country"], value_name="ugm-3")`
with pandas' default variable-column name "variable". -/
def unpivot (df : Table) : Except SchemaMismatch Table :=
  melt df ["Area code", "Country"] "variable" "ugm-3"

/-- First group captured by the regular expression search for four
consecutive digits, starting at the given character position: matches when
the next four characters are all digits. -/
def fourDigitAt : List Char → Option String
  | c1 :: c2 :: c3 :: c4 :: _ =>
    if c1.isDigit && c2.isDigit && c3.isDigit && c4.isDigit then
      some (String.mk [c1, c2, c3, c4])
    else none
  | _ => none

/-- Leftmost match of the regular expression for four consecutive digits:
tries each start position from the left. -/
def findFourDigits : List Char → Option String
  | [] => none
  | c :: rest =>
    match fourDigitAt (c :: rest) with
    | some s => some s
    | none => findFourDigits rest

/-- Attempted match, just after an opening parenthesis, of a greedy
non-whitespace run followed by a closing parenthesis: the group is the run
up to its last closing parenthesis (the greedy star backtracks to the last
position where the closing parenthesis can still match). -/
def parenGroupAt (cs : List Char) : Option String :=
  let run := cs.takeWhile (fun c => ! c.isWhitespace)
  match run.reverse.findIdx? (fun c => c == ')') with
  | some k => some (String.mk (run.take (run.length - 1 - k)))
  | none => none

/-- Leftmost match of the regular expression for a parenthesised
non-whitespace group: tries each opening parenthesis from the left. -/
def findParenGroup : List Char → Option String
  | [] => none
  | '(' :: rest =>
    match parenGroupAt rest with
    | some g => some g
    | none => findParenGroup rest
  | _ :: rest => findParenGroup rest

/-- Assignment `df[name] = vals` on a DataFrame: overwrite the column in
place when it exists, otherwise append it as the last column. -/
def setColumn (t : Table) (name : String) (vals : List Value) : Table :=
  match t.header.findIdx? (fun h => h == name) with
  | some i =>
    { header := t.header
      rows := (t.rows.zip vals).map (fun p => p.1.set i p.2) }
  | none =>
    { header := t.header ++ [name]
      rows := (t.rows.zip vals).map (fun p => p.1 ++ [p.2]) }

/-- String extraction `series.str.extract(pattern)` cell behaviour for one
capture group: NaN for non-string cells and for strings with no match. -/
def strExtract (matcher : List Char → Option String) (v : Value) : Value :=
  match v with
  | Value.str s =>
    match matcher s.toList with
    | some g => Value.str g
    | none => Value.na
  | _ => Value.na

/-- Translation of `split_variable_column` from
`src/oiflib/air/three/transform.py` (lines 21-34): two in-place column
assignments extracting a four-digit year and a parenthesised measure from
the "variable" column, then `return df`.  Accessing `df.variable` on a
DataFrame without that column raises `AttributeError` before any
assignment. -/
def split_variable_column (df : Table) : Except SchemaMismatch Table :=
  if df.header.contains "variable" then
    let yearVals := df.rows.map (fun r => strExtract findFourDigits (cellAt df "variable" r))
    let measureVals := df.rows.map (fun r => strExtract findParenGroup (cellAt df "variable" r))
    Except.ok (setColumn (setColumn df "year" yearVals) "measure" measureVals)
  else Except.error (SchemaMismatch.attributeError "variable")

/-- The state of the caller's DataFrame binding after `split_variable_column`
returns: the function assigns to `df[...]` in place and returns `df`
itself, so on success the argument aliases the returned table; on the
`AttributeError` path no assignment has happened. -/
def split_variable_column_argAfter (df : Table) : Table :=
  match split_variable_column df with
  | Except.ok u => u
  | Except.error _ => df

/-- Translation of `select_columns` from
`src/oiflib/air/three/transform.py` (lines 37-46). -/
def select_columns (df : Table) : Except SchemaMismatch Table :=
  tableSelect df ["Area code", "Country", "year", "measure", "ugm-3"]

/-- Translation of `transform_air_three` from
`src/oiflib/air/three/transform.py` (lines 61-75): the pipe of the four
steps in declared order. -/
def transform_air_three (df : Table) : Except SchemaMismatch Table :=
  (unpivot df).bind (fun a =>
    (split_variable_column a).bind (fun b =>
      (select_columns b).bind (fun c => filter_rows c)))

/-- The state of a `query` caller's DataFrame binding after the call:
pandas `DataFrame.query` builds a new frame, leaving its receiver
untouched. -/
def query_argAfter (t : Table) (_preds : List (String × Value)) : Table := t

/-- A raw extracted DataFrame, whose column labels need not be strings
(`read_excel` can produce integer labels). -/
structure RawTable where
  header : List Value
  rows : List (List Value)
  deriving DecidableEq, Repr

/-- Translation of `_column_name_to_string` from `src/oiflib/extract.py`
(lines 105-115): `df.columns = df.columns.astype(str)` followed by
`return df`. -/
def column_name_to_string (df : RawTable) : RawTable :=
  { header := df.header.map (fun v => Value.str v.asString)
    rows := df.rows }

/-- The state of the caller's DataFrame binding after
`_column_name_to_string` returns: the `df.columns = ...` assignment
mutates the argument in place, so it aliases the returned table. -/
def column_name_to_string_argAfter (df : RawTable) : RawTable :=
  column_name_to_string df

/-- A single pandera column check: a named boolean predicate on cell
values. -/
structure Check where
  name : String
  pred : Value → Bool

/-- A pandera `DataFrameSchema`, flattened to its ordered list of
(column, check) constraints. -/
abbrev Schema := List (String × Check)

/-- One violated constraint, as carried by a pandera `SchemaError`: the
column, the failed rule, and the offending values (empty for a missing
column). -/
structure Violation where
  column : String
  check : String
  failureCases : List Value
  deriving DecidableEq, Repr

/-- The outcome of one (column, check) constraint on a table: a missing
column is itself a violation; otherwise the check's failing cell values, if
any, form the violation's failure cases. -/
def checkColumn (t : Table) (c : String) (chk : Check) : Option Violation :=
  match t.header.findIdx? (fun h => h == c) with
  | none => some { column := c, check := "column_in_dataframe", failureCases := [] }
  | some i =>
    let bad := (t.rows.map (fun r => r.getD i Value.na)).filter (fun v => ! chk.pred v)
    if bad.isEmpty then none
    else some { column := c, check := chk.name, failureCases := bad }

/-- Translation of `validate` from `src/oiflib/validate.py` (line 87,
`schema(df)`): pandera's `DataFrameSchema.__call__` with its default
`lazy=False` runs the constraints in schema order and raises a
`SchemaError` at the first failing one; when none fails the input table is
returned unchanged. -/
def validateSchema : Schema → Table → Except Violation Table
  | [], t => Except.ok t
  | (c, chk) :: rest, t =>
    match checkColumn t c chk with
    | some v => Except.error v
    | none => validateSchema rest t

/-- All constraints of a schema that a table violates, in schema order. -/
def schemaViolations (s : Schema) (t : Table) : List Violation :=
  s.filterMap (fun p => checkColumn t p.1 p.2)

/-- The state of a `validateSchema` caller's DataFrame binding after the
call: pandera validation without coercion does not modify its input. -/
def validateSchema_argAfter (_s : Schema) (t : Table) : Table := t

/-- Extraction keyword arguments for one indicator, as stored in the
datasets dictionary. -/
abbrev ExtractKwargs := List (String × Value)

/-- Failure of the configuration lookup: the theme, or the indicator
within the theme, is absent; the missing key is carried in the error. -/
inductive ConfigLookupError where
  | themeMissing (theme : String)
  | indicatorMissing (theme : String) (indicator : String)
  deriving DecidableEq, Repr

/-- The message printed by `_kwargs_from_dict` before re-raising the
`KeyError`. -/
def configErrorMessage : ConfigLookupError → String
  | ConfigLookupError.themeMissing t => "Theme: " ++ t ++ " does not exist."
  | ConfigLookupError.indicatorMissing t i =>
    "Indicator: " ++ i ++ " does not exist in Theme: " ++ t ++ "."

/-- Translation of `_kwargs_from_dict` from `src/oiflib/extract.py`
(lines 75-96): look up the theme, then the indicator; each `KeyError` is
reported (with the missing key named) and re-raised; on the happy path the
indicator's parameter dictionary is returned. -/
def kwargs_from_dict (dictionary : List (String × List (String × ExtractKwargs)))
    (theme indicator : String) : Except ConfigLookupError ExtractKwargs :=
  match dictionary.lookup theme with
  | none => Except.error (ConfigLookupError.themeMissing theme)
  | some dictionary_theme =>
    match dictionary_theme.lookup indicator with
    | none => Except.error (ConfigLookupError.indicatorMissing theme indicator)
    | some dictionary_indicator => Except.ok dictionary_indicator

/-- One object stored by the uploader: the canned ACL and the object key.
The object body (the serialized CSV, remote bytes, or local file) is
external I/O and is not modelled. -/
structure PutObject where
  acl : String
  key : String
  deriving DecidableEq, Repr

/-- The observable outcome of an `upload_raw` call: the storage puts it
performed and its result (the returned S3 path, or the raised error's
message). -/
structure UploadOutcome where
  puts : List PutObject
  result : Except String String
  deriving Repr

/-- Interpolation of an `Optional[str]` into a Python f-string: `None`
renders as the literal "None". -/
def fString : Option String → String
  | none => "None"
  | some s => s

/-- Translation of the DataFrame overload of `upload_raw` from
`src/oiflib/upload_raw.py` (lines 99-128): serializing the DataFrame has no
storage effect; then `ValueError` is raised when both `filename` and
`key_name` are `None`; otherwise the key is `key_name` when truthy, else
the f-string over year, indicator code and filename, and one `put_object`
is issued before the S3 path is returned. -/
def upload_raw_df (_df : Table) (indicator_code year bucket_name acl : String)
    (key_name filename : Option String) : UploadOutcome :=
  if filename = none ∧ key_name = none then
    { puts := [], result := Except.error "You must provide a filename or a full S3 key." }
  else
    let _key :=
      if truthy key_name then key_name.getD ""
      else year ++ "_update/raw/" ++ indicator_code ++ "/" ++ fString filename
    { puts := [{ acl := acl, key := _key }]
      result := Except.ok ("s3://" ++ bucket_name ++ "/" ++ _key) }

/-- Python `os.path.basename`: the substring after the last slash. -/
def basename (path : String) : String :=
  match (path.splitOn "/").getLast? with
  | some s => s
  | none => path

/-- Translation of the str overload of `upload_raw` from
`src/oiflib/upload_raw.py` (lines 131-179): the filename defaults to the
path's basename, the key is `key_name` when truthy, else the f-string over
year, indicator code and filename; both the URL branch (`put_object` with
the fetched bytes) and the local-file branch (`upload_file`) store one
object at that key and return the S3 path.  The HTTP transfer itself is
external I/O, modelled as succeeding. -/
def upload_raw_str (df_or_path : String) (indicator_code year bucket_name acl : String)
    (key_name filename : Option String) : UploadOutcome :=
  let _filename := if truthy filename then filename.getD "" else basename df_or_path
  let _key :=
    if truthy key_name then key_name.getD ""
    else year ++ "_update/raw/" ++ indicator_code ++ "/" ++ _filename
  { puts := [{ acl := acl, key := _key }]
    result := Except.ok ("s3://" ++ bucket_name ++ "/" ++ _key) }

/-- Modelled from the spec: the storage path convention
`{year}/{indicator_code}/{filename}` stated in the external-interfaces
section, written exactly as the spec words it, for comparison with the key
the source code builds. -/
def spec_path_convention (year indicator_code filename : String) : String :=
  year ++ "/" ++ indicator_code ++ "/" ++ filename

/-- A concrete in-memory DataFrame, as in the `upload_raw` docstring. -/
def exampleRawDf : Table :=
  { header := ["col1", "col2"]
    rows := [[Value.int 1, Value.int 3], [Value.int 2, Value.int 4]] }

/-- A check requiring a cell to be an integer greater than zero. -/
def exampleCheckPos : Check :=
  { name := "greater_than_0"
    pred := fun v => match v with | Value.int n => decide (0 < n) | _ => false }

/-- A check requiring a cell to be a non-empty string. -/
def exampleCheckNonEmpty : Check :=
  { name := "str_length_geq_1"
    pred := fun v => match v with | Value.str s => s != "" | _ => false }

/-- A schema with two independent constraints on two different columns. -/
def exampleSchemaTwo : Schema :=
  [("A", exampleCheckPos), ("B", exampleCheckNonEmpty)]

/-- A table violating both constraints of `exampleSchemaTwo`. -/
def exampleTableTwoBad : Table :=
  { header := ["A", "B"], rows := [[Value.int (-1), Value.str ""]] }

/-- A concrete pre-format table in the spec's Format scenario shape, with
the value column deliberately placed before the disaggregation column to
show output order is independent of input order. -/
def exampleEmissions : Table :=
  { header := ["EmissionYear", "Index", "ShortPollName"]
    rows := [[Value.int 1990, Value.int 100, Value.str "NH3"]] }

/-- A concrete already-formatted three-column table for the idempotence
witness. -/
def exampleFormatted : Table :=
  { header := ["Year", "Pollutant", "Value"]
    rows := [[Value.int 1990, Value.str "NH3", Value.int 100]] }

/-- The spec's Unpivot scenario input: columns ["ID", "2020", "2021"] and
one row ["x", 1, 2]. -/
def exampleWide : Table :=
  { header := ["ID", "2020", "2021"]
    rows := [[Value.str "x", Value.int 1, Value.int 2]] }

/-- The spec's Filter scenario input rows [("a", "total"), ("b",
"partial")]. -/
def exampleCategories : Table :=
  { header := ["name", "category"]
    rows := [[Value.str "a", Value.str "total"], [Value.str "b", Value.str "partial"]] }

/-- A concrete datasets dictionary with one theme and one indicator. -/
def exampleConfig : List (String × List (String × ExtractKwargs)) :=
  [("air", [("one", [("io", Value.str "data.xlsx"), ("skiprows", Value.int 13)])])]

/-- A concrete table lacking all the columns the steps reference. -/
def exampleNoSuchColumns : Table := { header := ["x"], rows := [[Value.int 0]] }

/-- A table with a "variable" column, as produced by `unpivot`, on which
`split_variable_column` operates. -/
def exampleVariableTable : Table :=
  { header := ["variable"], rows := [[Value.str "2020 (total)"]] }

/-- A freshly extracted raw table with an integer column label, as
`read_excel` produces for unnamed year columns. -/
def exampleRawHeaderTable : RawTable :=
  { header := [Value.int 1], rows := [[Value.str "a"]] }

/-- C10: calling the DataFrame overload of `upload_raw` with both
`filename` and `key_name` equal to `None` raises `ValueError` and performs
no storage put: the `put_object` call is never reached. -/
theorem upload_df_requires_filename (df : Table)
    (indicator_code year bucket_name acl : String) :
    upload_raw_df df indicator_code year bucket_name acl none none =
      { puts := []
        result := Except.error "You must provide a filename or a full S3 key." } := rfl

/-- C7 counterexample: a call to the raw-artifact uploader without
`key_name` stores the object under `2022_update/raw/A1/data.xlsx` and
returns the matching S3 path, which does not follow the spec's claimed
path convention `{year}/{indicator_code}/{filename}` =
`2022/A1/data.xlsx`. -/
theorem upload_key_convention_counterexample :
    (upload_raw_df exampleRawDf "A1" "2022" "s3-ranch-029" "bucket-owner-full-control"
        none (some "data.xlsx")).puts =
      [{ acl := "bucket-owner-full-control", key := "2022_update/raw/A1/data.xlsx" }] ∧
    (upload_raw_df exampleRawDf "A1" "2022" "s3-ranch-029" "bucket-owner-full-control"
        none (some "data.xlsx")).result =
      Except.ok "s3://s3-ranch-029/2022_update/raw/A1/data.xlsx" ∧
    "2022_update/raw/A1/data.xlsx" ≠ spec_path_convention "2022" "A1" "data.xlsx" :=
  ⟨rfl, rfl, by decide⟩

/-- C7 (amended): for every call to either `upload_raw` overload with
`key_name` not supplied, the storage key and the returned S3 path follow
the convention `{year}_update/raw/{indicator_code}/{filename}`, where for
the str overload the filename defaults to the path's basename. -/
theorem upload_key_convention (df : Table) (path : String)
    (indicator_code year bucket_name acl f : String) :
    upload_raw_df df indicator_code year bucket_name acl none (some f) =
      { puts := [{ acl := acl
                   key := year ++ "_update/raw/" ++ indicator_code ++ "/" ++ f }]
        result := Except.ok ("s3://" ++ bucket_name ++ "/" ++
          (year ++ "_update/raw/" ++ indicator_code ++ "/" ++ f)) } ∧
    upload_raw_str path indicator_code year bucket_name acl none none =
      { puts := [{ acl := acl
                   key := year ++ "_update/raw/" ++ indicator_code ++ "/" ++ basename path }]
        result := Except.ok ("s3://" ++ bucket_name ++ "/" ++
          (year ++ "_update/raw/" ++ indicator_code ++ "/" ++ basename path)) } :=
  ⟨rfl, rfl⟩

/-- C1 counterexample: a table violating two independent schema
constraints (on columns "A" and "B"); validation reports a `SchemaError`
carrying only the first violated constraint (column "A"), so the error
does not enumerate every violated constraint. -/
theorem validate_first_failure_counterexample :
    (schemaViolations exampleSchemaTwo exampleTableTwoBad).length = 2 ∧
    (schemaViolations exampleSchemaTwo exampleTableTwoBad).map Violation.column = ["A", "B"] ∧
    validateSchema exampleSchemaTwo exampleTableTwoBad =
      Except.error
        { column := "A", check := "greater_than_0", failureCases := [Value.int (-1)] } :=
  ⟨rfl, rfl, rfl⟩

/-- C1 (amended): validation is fail-fast: it reports a `SchemaError` for
the first violated constraint in schema order (only), and returns the
input table unchanged exactly when no constraint is violated. -/
theorem validate_reports_first_violation (s : Schema) (t : Table) :
    validateSchema s t =
      match schemaViolations s t with
      | [] => Except.ok t
      | v :: _ => Except.error v := by
  induction s with
  | nil => rfl
  | cons p rest ih =>
    obtain ⟨c, chk⟩ := p
    cases hp : checkColumn t c chk with
    | none =>
      simpa [validateSchema, schemaViolations, List.filterMap_cons, hp] using ih
    | some v =>
      simp [validateSchema, schemaViolations, List.filterMap_cons, hp]

/-- Helper: evaluation of `format` without a disaggregation column, when
the two named columns are present and distinct. -/
theorem format_none_eq (t : Table) (y v : String)
    (hy : y ∈ t.header) (hv : v ∈ t.header) (hyv : y ≠ v) :
    format t y v none none =
      Except.ok
        { header := ["Year", "Value"]
          rows := t.rows.map (fun r => [cellAt t y r, cellAt t v r]) } := by
  have hcy : t.header.contains y = true := by simp [hy]
  have hcv : t.header.contains v = true := by simp [hv]
  have hvy : (v == y) = false := by simp [hyv.symm]
  simp [format, truthy, pyDict, pyDictInsert, tableSelect, renameColumns, Except.map,
    hcy, hcv, hy, hv, hyv, hyv.symm, hvy, List.lookup]

/-- Helper: evaluation of `format` with a disaggregation column and a new
name for it, when the three named columns are present and distinct and the
optional strings are truthy. -/
theorem format_some_some_eq (t : Table) (y d dn v : String)
    (hy : y ∈ t.header) (hd : d ∈ t.header) (hv : v ∈ t.header)
    (hyd : y ≠ d) (hyv : y ≠ v) (hdv : d ≠ v)
    (hde : d ≠ "") (hdne : dn ≠ "") :
    format t y v (some d) (some dn) =
      Except.ok
        { header := ["Year", dn, "Value"]
          rows := t.rows.map (fun r => [cellAt t y r, cellAt t d r, cellAt t v r]) } := by
  have hcy : t.header.contains y = true := by simp [hy]
  have hcd : t.header.contains d = true := by simp [hd]
  have hcv : t.header.contains v = true := by simp [hv]
  have hdy : (d == y) = false := by simp [hyd.symm]
  have hvy : (v == y) = false := by simp [hyv.symm]
  have hvd : (v == d) = false := by simp [hdv.symm]
  simp [format, truthy, pyDict, pyDictInsert, tableSelect, renameColumns, Except.map,
    hcy, hcd, hcv, hy, hd, hv, hyd, hyv, hdv, hdy, hvy, hvd,
    hde, hdne, List.lookup]

/-- C2: for every input Table containing the named distinct leading,
disaggregation and value columns, `format` returns a Table whose first
column is "Year" (the renamed leading column), whose last column is
"Value" (the renamed value column), and whose middle column is the renamed
disaggregation column, regardless of the input Table's column order. -/
theorem format_column_contract (t : Table) (y d dn v : String)
    (hy : y ∈ t.header) (hd : d ∈ t.header) (hv : v ∈ t.header)
    (hyd : y ≠ d) (hyv : y ≠ v) (hdv : d ≠ v)
    (hde : d ≠ "") (hdne : dn ≠ "") :
    ∃ u, format t y v (some d) (some dn) = Except.ok u ∧
      u.header = ["Year", dn, "Value"] ∧
      u.header.head? = some "Year" ∧
      u.header.getLast? = some "Value" ∧
      u.rows = t.rows.map (fun r => [cellAt t y r, cellAt t d r, cellAt t v r]) :=
  ⟨_, format_some_some_eq t y d dn v hy hd hv hyd hyv hdv hde hdne, rfl, rfl, rfl, rfl⟩

/-- C2 witness: the spec's Format scenario, leading "EmissionYear",
trailing "Index", disaggregation "ShortPollName" renamed "Pollutant",
yields column order ["Year", "Pollutant", "Value"]. -/
theorem format_column_contract_witness :
    (∃ u, format exampleEmissions "EmissionYear" "Index"
          (some "ShortPollName") (some "Pollutant") = Except.ok u ∧
        u.header = ["Year", "Pollutant", "Value"] ∧
        u.header.head? = some "Year" ∧
        u.header.getLast? = some "Value" ∧
        u.rows = exampleEmissions.rows.map (fun r =>
          [cellAt exampleEmissions "EmissionYear" r,
           cellAt exampleEmissions "ShortPollName" r,
           cellAt exampleEmissions "Index" r])) ∧
    format exampleEmissions "EmissionYear" "Index"
        (some "ShortPollName") (some "Pollutant") =
      Except.ok
        { header := ["Year", "Pollutant", "Value"]
          rows := [[Value.int 1990, Value.str "NH3", Value.int 100]] } :=
  ⟨format_column_contract exampleEmissions "EmissionYear" "ShortPollName" "Pollutant" "Index"
      (by decide) (by decide) (by decide) (by decide) (by decide) (by decide)
      (by decide) (by decide),
   rfl⟩

/-- C8: applying the Formatter to its own output with an identity mapping
is the identity: when `format` has produced a Table (in either the
two-column or the three-column layout), formatting that output again with
leading "Year", trailing "Value" and the disaggregation column mapped to
itself returns the same Table. -/
theorem format_idempotent :
    (∀ (t : Table) (y v : String) (u : Table),
      y ∈ t.header → v ∈ t.header → y ≠ v →
      format t y v none none = Except.ok u →
      format u "Year" "Value" none none = Except.ok u) ∧
    (∀ (t : Table) (y d dn v : String) (u : Table),
      y ∈ t.header → d ∈ t.header → v ∈ t.header →
      y ≠ d → y ≠ v → d ≠ v → d ≠ "" →
      dn ≠ "" → dn ≠ "Year" → dn ≠ "Value" →
      format t y v (some d) (some dn) = Except.ok u →
      format u "Year" "Value" (some dn) (some dn) = Except.ok u) := by
  constructor
  · intro t y v u hy hv hyv hfmt
    rw [format_none_eq t y v hy hv hyv] at hfmt
    injection hfmt with hu
    subst hu
    rw [format_none_eq _ "Year" "Value" (by simp) (by simp) (by decide)]
    congr 1
    simp only [cellAt, List.findIdx?_cons, List.findIdx?_nil, beq_self_eq_true,
      if_true, List.map_map]
    rfl
  · intro t y d dn v u hy hd hv hyd hyv hdv hde hdne hdnY hdnV hfmt
    rw [format_some_some_eq t y d dn v hy hd hv hyd hyv hdv hde hdne] at hfmt
    injection hfmt with hu
    subst hu
    have hYdn : ("Year" == dn) = false := by simp [Ne.symm hdnY]
    have hdnV2 : (dn == "Value") = false := by simp [hdnV]
    rw [format_some_some_eq _ "Year" dn dn "Value" (by simp) (by simp) (by simp)
      (Ne.symm hdnY) (by decide) hdnV hdne hdne]
    congr 1
    simp only [cellAt, List.findIdx?_cons, List.findIdx?_nil, beq_self_eq_true,
      hYdn, hdnV2, if_true, if_false, Bool.false_eq_true, List.map_map]
    rfl

/-- C8 witness: formatting the formatted Format-scenario output again with
the identity mapping returns it unchanged. -/
theorem format_idempotent_witness :
    format exampleEmissions "EmissionYear" "Index"
        (some "ShortPollName") (some "Pollutant") = Except.ok exampleFormatted ∧
    format exampleFormatted "Year" "Value" (some "Pollutant") (some "Pollutant") =
      Except.ok exampleFormatted :=
  ⟨rfl,
   format_idempotent.2 exampleEmissions "EmissionYear" "ShortPollName" "Pollutant" "Index"
     exampleFormatted (by decide) (by decide) (by decide) (by decide) (by decide)
     (by decide) (by decide) (by decide) (by decide) (by decide) rfl⟩

/-- Helper: a flat map whose pieces are maps over a fixed list multiplies
the length. -/
theorem length_flatMap_map {α β γ : Type} (l : List α) (rs : List β) (g : α → β → γ) :
    (l.flatMap (fun v => rs.map (g v))).length = l.length * rs.length := by
  induction l with
  | nil => simp
  | cons a l ih =>
    simp only [List.flatMap_cons, List.length_append, List.length_map, ih, List.length_cons]
    ring

/-- C3: for every Table whose designated identifier columns are present,
`melt` (the operation `unpivot` performs) produces one output row per
(value column, input row) pair: the header is the identifier columns
followed by the category and value columns, each output row carries the
identifier cells, the originating value column's name and that cell's
value, and the row count is the number of value columns times the input
row count. -/
theorem melt_unpivot_spec (t : Table) (idVars : List String)
    (varName valueName : String) (h : ∀ c ∈ idVars, c ∈ t.header) :
    ∃ u, melt t idVars varName valueName = Except.ok u ∧
      u.header = idVars ++ [varName, valueName] ∧
      u.rows = (meltValueVars t idVars).flatMap (fun v =>
        t.rows.map (fun r =>
          idVars.map (fun c => cellAt t c r) ++ [Value.str v, cellAt t v r])) ∧
      u.rows.length = (meltValueVars t idVars).length * t.rows.length := by
  have hall : idVars.all (fun c => t.header.contains c) = true := by
    rw [List.all_eq_true]
    intro c hc
    exact List.elem_eq_true_of_mem (h c hc)
  have hmelt : melt t idVars varName valueName =
      Except.ok
        { header := idVars ++ [varName, valueName]
          rows := (meltValueVars t idVars).flatMap (fun v =>
            t.rows.map (fun r =>
              idVars.map (fun c => cellAt t c r) ++ [Value.str v, cellAt t v r])) } := by
    unfold melt
    rw [if_pos hall]
  refine ⟨_, hmelt, rfl, rfl, ?_⟩
  exact length_flatMap_map (meltValueVars t idVars) t.rows
    (fun v r => idVars.map (fun c => cellAt t c r) ++ [Value.str v, cellAt t v r])

/-- C3 witness: melting the Unpivot-scenario table over ["2020", "2021"]
with identifier ["ID"] yields exactly the two rows ["x", "2020", 1] and
["x", "2021", 2]. -/
theorem melt_unpivot_spec_witness :
    (∃ u, melt exampleWide ["ID"] "variable" "value" = Except.ok u ∧
      u.header = ["ID"] ++ ["variable", "value"] ∧
      u.rows = (meltValueVars exampleWide ["ID"]).flatMap (fun v =>
        exampleWide.rows.map (fun r =>
          ["ID"].map (fun c => cellAt exampleWide c r) ++
            [Value.str v, cellAt exampleWide v r])) ∧
      u.rows.length = (meltValueVars exampleWide ["ID"]).length *
        exampleWide.rows.length) ∧
    melt exampleWide ["ID"] "variable" "value" =
      Except.ok
        { header := ["ID", "variable", "value"]
          rows := [[Value.str "x", Value.str "2020", Value.int 1],
                   [Value.str "x", Value.str "2021", Value.int 2]] } :=
  ⟨melt_unpivot_spec exampleWide ["ID"] "variable" "value" (by decide), rfl⟩

/-- C4: for every Table and every conjunction of column-equality
predicates whose columns are present, `query` (the operation `filter_rows`
performs) returns the rows satisfying ALL predicates, as a sublist of the
input rows (hence never reordered): every retained row satisfies the
predicates and every input row satisfying them is retained. -/
theorem query_filter_spec (t : Table) (preds : List (String × Value))
    (h : ∀ p ∈ preds, p.1 ∈ t.header) :
    ∃ u, query t preds = Except.ok u ∧
      u.header = t.header ∧
      u.rows = t.rows.filter (rowSat t preds) ∧
      List.Sublist u.rows t.rows ∧
      (∀ r ∈ u.rows, rowSat t preds r = true) ∧
      (∀ r ∈ t.rows, rowSat t preds r = true → r ∈ u.rows) := by
  have hall : preds.all (fun p => t.header.contains p.1) = true := by
    rw [List.all_eq_true]
    intro p hp
    exact List.elem_eq_true_of_mem (h p hp)
  have hq : query t preds =
      Except.ok { header := t.header, rows := t.rows.filter (rowSat t preds) } := by
    unfold query
    rw [if_pos hall]
  refine ⟨_, hq, rfl, rfl, List.filter_sublist t.rows, ?_, ?_⟩
  · intro r hr
    exact (List.mem_filter.mp hr).2
  · intro r hr hsat
    exact List.mem_filter.mpr ⟨hr, hsat⟩

/-- C4 witness: filtering the Filter-scenario rows on category == "total"
yields only ("a", "total"). -/
theorem query_filter_spec_witness :
    (∃ u, query exampleCategories [("category", Value.str "total")] = Except.ok u ∧
      u.header = exampleCategories.header ∧
      u.rows = exampleCategories.rows.filter
        (rowSat exampleCategories [("category", Value.str "total")]) ∧
      List.Sublist u.rows exampleCategories.rows ∧
      (∀ r ∈ u.rows, rowSat exampleCategories [("category", Value.str "total")] r = true) ∧
      (∀ r ∈ exampleCategories.rows,
        rowSat exampleCategories [("category", Value.str "total")] r = true → r ∈ u.rows)) ∧
    query exampleCategories [("category", Value.str "total")] =
      Except.ok
        { header := ["name", "category"]
          rows := [[Value.str "a", Value.str "total"]] } :=
  ⟨query_filter_spec exampleCategories [("category", Value.str "total")] (by decide), rfl⟩

/-- C9: the extraction lookup fails immediately with an error naming the
missing theme when the theme key is absent, fails with an error naming the
missing indicator when the theme is present but the indicator key is
absent, and returns the indicator's extraction parameters when both are
present; being a single pure lookup, it is not retried. -/
theorem kwargs_lookup_spec (d : List (String × List (String × ExtractKwargs)))
    (theme indicator : String) :
    (d.lookup theme = none →
      kwargs_from_dict d theme indicator =
        Except.error (ConfigLookupError.themeMissing theme)) ∧
    (∀ dt, d.lookup theme = some dt → dt.lookup indicator = none →
      kwargs_from_dict d theme indicator =
        Except.error (ConfigLookupError.indicatorMissing theme indicator)) ∧
    (∀ dt p, d.lookup theme = some dt → dt.lookup indicator = some p →
      kwargs_from_dict d theme indicator = Except.ok p) := by
  refine ⟨fun h => ?_, fun dt h1 h2 => ?_, fun dt p h1 h2 => ?_⟩
  · simp [kwargs_from_dict, h]
  · simp [kwargs_from_dict, h1, h2]
  · simp [kwargs_from_dict, h1, h2]

/-- C9 witness: the three branches of `kwargs_lookup_spec` at concrete
configurations. -/
theorem kwargs_lookup_spec_witness :
    kwargs_from_dict [] "air" "one" =
      Except.error (ConfigLookupError.themeMissing "air") ∧
    kwargs_from_dict exampleConfig "air" "two" =
      Except.error (ConfigLookupError.indicatorMissing "air" "two") ∧
    kwargs_from_dict exampleConfig "air" "one" =
      Except.ok [("io", Value.str "data.xlsx"), ("skiprows", Value.int 13)] :=
  ⟨(kwargs_lookup_spec [] "air" "one").1 rfl,
   (kwargs_lookup_spec exampleConfig "air" "two").2.1 _ rfl rfl,
   (kwargs_lookup_spec exampleConfig "air" "one").2.2 _ _ rfl rfl⟩

/-- Helper: the keys of a Python dict after one insertion. -/
theorem pyDictInsert_keys (acc : List (String × String)) (kv : String × String) :
    (pyDictInsert acc kv).map (fun p => p.1) =
      if kv.1 ∈ acc.map (fun p => p.1) then acc.map (fun p => p.1)
      else acc.map (fun p => p.1) ++ [kv.1] := by
  unfold pyDictInsert
  by_cases h : acc.any (fun p => p.1 == kv.1) = true
  · rw [if_pos h]
    have hmem : kv.1 ∈ acc.map (fun p => p.1) := by
      obtain ⟨p, hp, he⟩ := List.any_eq_true.mp h
      simp only [beq_iff_eq] at he
      exact he ▸ List.mem_map_of_mem (fun p => p.1) hp
    rw [if_pos hmem, List.map_map]
    apply List.map_congr_left
    intro p _
    by_cases hpk : (p.1 == kv.1) = true <;> simp [Function.comp, hpk]
  · rw [if_neg h]
    have hmem : kv.1 ∉ acc.map (fun p => p.1) := by
      intro hm
      apply h
      obtain ⟨p, hp, he⟩ := List.mem_map.mp hm
      exact List.any_eq_true.mpr ⟨p, hp, by simp [he]⟩
    rw [if_neg hmem, List.map_append]
    rfl

/-- Helper: every key of the pair list survives as a key of the Python
dict built from it. -/
theorem pyDict_keys_mem (l : List (String × String)) (k : String)
    (h : k ∈ l.map (fun p => p.1)) : k ∈ (pyDict l).map (fun p => p.1) := by
  have general : ∀ (l acc : List (String × String)) (k : String),
      k ∈ acc.map (fun p => p.1) ∨ k ∈ l.map (fun p => p.1) →
      k ∈ (l.foldl pyDictInsert acc).map (fun p => p.1) := by
    intro l
    induction l with
    | nil =>
      intro acc k h
      simpa using h.resolve_right (by simp)
    | cons kv rest ih =>
      intro acc k h
      rw [List.foldl_cons]
      apply ih
      rcases h with hacc | hl
      · left
        rw [pyDictInsert_keys]
        by_cases hk : kv.1 ∈ acc.map (fun p => p.1)
        · rwa [if_pos hk]
        · rw [if_neg hk]
          exact List.mem_append_left _ hacc
      · rw [List.map_cons] at hl
        rcases List.mem_cons.mp hl with rfl | hrest
        · left
          rw [pyDictInsert_keys]
          by_cases hk : kv.1 ∈ acc.map (fun p => p.1)
          · rwa [if_pos hk]
          · rw [if_neg hk]
            exact List.mem_append_right _ (by simp)
        · right
          exact hrest
  exact general l [] k (Or.inr h)

/-- Helper: column selection with a missing column fails. -/
theorem tableSelect_error_of_missing (t : Table) (cols : List String)
    (hex : ∃ c ∈ cols, c ∉ t.header) :
    ∃ e, tableSelect t cols = Except.error e := by
  obtain ⟨c, hc, hmem⟩ := hex
  have hall : cols.all (fun c => t.header.contains c) = false := by
    cases hall : cols.all (fun c => t.header.contains c)
    · rfl
    · exfalso
      have hct := List.all_eq_true.mp hall c hc
      simp only [List.elem_iff] at hct
      exact hmem hct
  refine ⟨SchemaMismatch.keyError (cols.filter (fun c => ! t.header.contains c)), ?_⟩
  have hne : ¬ (cols.all (fun c => t.header.contains c) = true) := by
    rw [hall]
    exact Bool.false_ne_true
  unfold tableSelect
  rw [if_neg hne]

/-- Helper: a query with a predicate on a missing column fails. -/
theorem query_error_of_missing (t : Table) (preds : List (String × Value))
    (hex : ∃ p ∈ preds, p.1 ∉ t.header) :
    ∃ e, query t preds = Except.error e := by
  obtain ⟨p, hp, hmem⟩ := hex
  have hall : preds.all (fun p => t.header.contains p.1) = false := by
    cases hall : preds.all (fun p => t.header.contains p.1)
    · rfl
    · exfalso
      have hct := List.all_eq_true.mp hall p hp
      simp only [List.elem_iff] at hct
      exact hmem hct
  refine ⟨SchemaMismatch.undefinedVariable
    ((preds.filter (fun p => ! t.header.contains p.1)).map (fun p => p.1)), ?_⟩
  have hne : ¬ (preds.all (fun p => t.header.contains p.1) = true) := by
    rw [hall]
    exact Bool.false_ne_true
  unfold query
  rw [if_neg hne]

/-- Helper: `format` fails whenever any column it references is missing:
the year column, the value column, or — when the optional argument is
truthy, so that the dict includes it — the disaggregation column,
whichever branch builds the columns dict. -/
theorem format_error_of_missing (t : Table) (y v : String)
    (dc dcn : Option String)
    (hmiss : y ∉ t.header ∨ v ∉ t.header ∨
      (truthy dc = true ∧ dc.getD "" ∉ t.header)) :
    ∃ e, format t y v dc dcn = Except.error e := by
  have key : ∀ (base : List (String × String)) (c : String),
      c ∈ base.map (fun p => p.1) → c ∉ t.header →
      ∃ e, (tableSelect t ((pyDict base).map (fun p => p.1))).map
        (fun u => renameColumns u (pyDict base)) = Except.error e := by
    intro base c hbase hc
    obtain ⟨e, he⟩ := tableSelect_error_of_missing t ((pyDict base).map (fun p => p.1))
      ⟨c, pyDict_keys_mem base c hbase, hc⟩
    exact ⟨e, by rw [he]; rfl⟩
  simp only [format]
  by_cases h1 : truthy dc = false
  · rw [if_pos h1]
    rcases hmiss with hy | hv | ⟨htr, _⟩
    · exact key _ y (by simp) hy
    · exact key _ v (by simp) hv
    · rw [h1] at htr
      exact Bool.noConfusion htr
  · rw [if_neg h1]
    by_cases h2 : truthy dcn = false
    · rw [if_pos h2]
      rcases hmiss with hy | hv | ⟨_, hd⟩
      · exact key _ y (by simp) hy
      · exact key _ v (by simp) hv
      · exact key _ (dc.getD "") (by simp) hd
    · rw [if_neg h2]
      rcases hmiss with hy | hv | ⟨_, hd⟩
      · exact key _ y (by simp) hy
      · exact key _ v (by simp) hv
      · exact key _ (dc.getD "") (by simp) hd

/-- C6: a transform step that references a column name absent from the
Table fails with a SchemaMismatch error rather than being silently skipped
or returning a usable Table: the generic row filter, the column
selector, and the concrete `filter_rows` step each return an error when a
referenced column is missing, and the formatter returns an error whenever
any of the columns it references — the leading column, the value column,
or the (truthy) disaggregation column — is missing. -/
theorem missing_column_errors :
    (∀ (t : Table) (preds : List (String × Value)),
      (∃ p ∈ preds, p.1 ∉ t.header) → ∃ e, query t preds = Except.error e) ∧
    (∀ (t : Table) (cols : List String),
      (∃ c ∈ cols, c ∉ t.header) → ∃ e, tableSelect t cols = Except.error e) ∧
    (∀ t : Table, "Country" ∉ t.header → ∃ e, filter_rows t = Except.error e) ∧
    (∀ (t : Table) (y v : String) (dc dcn : Option String),
      (y ∉ t.header ∨ v ∉ t.header ∨
        (truthy dc = true ∧ dc.getD "" ∉ t.header)) →
      ∃ e, format t y v dc dcn = Except.error e) :=
  ⟨query_error_of_missing, tableSelect_error_of_missing,
   fun t h => query_error_of_missing t _ ⟨("Country", Value.str "England"), by simp, h⟩,
   format_error_of_missing⟩

/-- C6 witness: each step applied to a table lacking the referenced
columns returns an error. -/
theorem missing_column_errors_witness :
    (∃ e, query exampleNoSuchColumns [("category", Value.str "total")] = Except.error e) ∧
    (∃ e, tableSelect exampleNoSuchColumns ["Country"] = Except.error e) ∧
    (∃ e, filter_rows exampleNoSuchColumns = Except.error e) ∧
    (∃ e, format exampleNoSuchColumns "EmissionYear" "Index" none none = Except.error e) ∧
    (∃ e, format exampleEmissions "EmissionYear" "Missing" none none = Except.error e) ∧
    (∃ e, format exampleEmissions "EmissionYear" "Index"
      (some "NoSuchPoll") (some "Pollutant") = Except.error e) :=
  ⟨missing_column_errors.1 _ _ ⟨("category", Value.str "total"), by decide, by decide⟩,
   missing_column_errors.2.1 _ _ ⟨"Country", by decide, by decide⟩,
   missing_column_errors.2.2.1 _ (by decide),
   missing_column_errors.2.2.2 _ "EmissionYear" "Index" none none (by decide),
   missing_column_errors.2.2.2 _ "EmissionYear" "Missing" none none (by decide),
   missing_column_errors.2.2.2 _ "EmissionYear" "Index"
     (some "NoSuchPoll") (some "Pollutant") (by decide)⟩

/-- Helper: a list fixed by a map has every element fixed. -/
theorem list_map_eq_self_mem {α : Type} {f : α → α} {l : List α}
    (h : l.map f = l) : ∀ x ∈ l, f x = x := by
  induction l with
  | nil => intro x hx; cases hx
  | cons a l ih =>
    rw [List.map_cons, List.cons.injEq] at h
    intro x hx
    rcases List.mem_cons.mp hx with rfl | hx'
    · exact h.1
    · exact ih h.2 x hx'

/-- Helper: a column assignment never shortens the header. -/
theorem setColumn_header_length (t : Table) (name : String) (vals : List Value) :
    t.header.length ≤ (setColumn t name vals).header.length := by
  unfold setColumn
  cases t.header.findIdx? (fun h => h == name) <;> simp

/-- Helper: assigning a fresh column grows the header by one. -/
theorem setColumn_header_length_new (t : Table) (name : String) (vals : List Value)
    (h : name ∉ t.header) :
    (setColumn t name vals).header.length = t.header.length + 1 := by
  have hidx : t.header.findIdx? (fun h => h == name) = none := by
    rw [List.findIdx?_eq_none_iff]
    intro x hx
    simp only [beq_eq_false_iff_ne, ne_eq]
    intro hxe
    exact h (hxe ▸ hx)
  unfold setColumn
  rw [hidx]
  simp

/-- Helper: `split_variable_column` leaves its argument with a strictly
longer header whenever the "year" column was fresh, so the post-call
argument differs from the input. -/
theorem split_variable_column_argAfter_ne (df : Table)
    (hvar : "variable" ∈ df.header) (hyr : "year" ∉ df.header) :
    split_variable_column_argAfter df ≠ df := by
  have hcv : df.header.contains "variable" = true := List.elem_eq_true_of_mem hvar
  have hsplit : split_variable_column_argAfter df =
      setColumn
        (setColumn df "year"
          (df.rows.map (fun r => strExtract findFourDigits (cellAt df "variable" r))))
        "measure"
        (df.rows.map (fun r => strExtract findParenGroup (cellAt df "variable" r))) := by
    unfold split_variable_column_argAfter split_variable_column
    rw [if_pos hcv]
  intro heq
  have hlen : df.header.length + 1 ≤ (split_variable_column_argAfter df).header.length := by
    rw [hsplit]
    calc df.header.length + 1
        = (setColumn df "year"
            (df.rows.map (fun r => strExtract findFourDigits (cellAt df "variable" r)))).header.length := by
          rw [setColumn_header_length_new df "year" _ hyr]
      _ ≤ _ := setColumn_header_length _ "measure" _
  rw [heq] at hlen
  omega

/-- Helper: stringifying a raw table's column labels changes it whenever
some label is an integer. -/
theorem column_name_to_string_argAfter_ne (rt : RawTable)
    (h : ∃ n : Int, Value.int n ∈ rt.header) :
    column_name_to_string_argAfter rt ≠ rt := by
  obtain ⟨n, hn⟩ := h
  intro heq
  have hh : rt.header.map (fun v => Value.str v.asString) = rt.header :=
    congrArg RawTable.header heq
  have hfix := list_map_eq_self_mem hh (Value.int n) hn
  exact Value.noConfusion hfix

/-- C5 counterexample: two pipeline components mutate their argument:
after `split_variable_column` the caller's table has gained "year" and
"measure" columns, and after `_column_name_to_string` the caller's table
has stringified column labels, so neither input Table is left unchanged. -/
theorem component_mutation_counterexample :
    split_variable_column_argAfter exampleVariableTable ≠ exampleVariableTable ∧
    column_name_to_string_argAfter exampleRawHeaderTable ≠ exampleRawHeaderTable := by
  constructor <;> decide

/-- C5 (amended): every component is deterministic (a function of its
input alone); `query` (hence `filter_rows`) and schema validation leave
the caller's Table unchanged; but `split_variable_column` and
`_column_name_to_string` update their argument in place, so the argument
after the call differs from the input whenever the assigned "year" column
was fresh, respectively whenever some column label was not a string. -/
theorem component_state_effects :
    (∀ (t : Table) (preds : List (String × Value)), query_argAfter t preds = t) ∧
    (∀ (s : Schema) (t : Table), validateSchema_argAfter s t = t) ∧
    (∀ df : Table, "variable" ∈ df.header → "year" ∉ df.header →
      split_variable_column_argAfter df ≠ df) ∧
    (∀ rt : RawTable, (∃ n : Int, Value.int n ∈ rt.header) →
      column_name_to_string_argAfter rt ≠ rt) :=
  ⟨fun _ _ => rfl, fun _ _ => rfl,
   split_variable_column_argAfter_ne, column_name_to_string_argAfter_ne⟩

/-- C5 witness: the amended statement applied at concrete tables. -/
theorem component_state_effects_witness :
    query_argAfter exampleCategories [("category", Value.str "total")] = exampleCategories ∧
    split_variable_column_argAfter exampleVariableTable ≠ exampleVariableTable ∧
    column_name_to_string_argAfter exampleRawHeaderTable ≠ exampleRawHeaderTable :=
  ⟨component_state_effects.1 exampleCategories [("category", Value.str "total")],
   component_state_effects.2.2.1 exampleVariableTable (by decide) (by decide),
   component_state_effects.2.2.2 exampleRawHeaderTable ⟨1, by decide⟩⟩
